import Mathlib

/-!
Verification of the provider-resolution and fallback-chain logic of
`src/agents/providers.py` (gitlab-cr-agent), against the subset of
`src/config/settings.py` it reads.

The embedding models Python optional strings as `Option String`, Python
truthiness (`None` and `""` are falsy) as `truthy`, the environment as a
total map `String → Option String`, and each factory function as a pure
function returning `Except ProviderError ModelHandle`.  The `try/except
Exception` wrapper that every factory puts around its body is modelled
explicitly: any error raised inside the body — including the
`ConfigurationException` for a missing key — is re-wrapped into an
`AIProviderException` (`ProviderError.providerInitError`).
-/

deriving instance DecidableEq for Except

namespace GitlabCrAgent

/-- Process environment: `os.getenv` returns `None` for an unset variable. -/
def Env : Type := String → Option String

/-- Python truthiness of an optional string: `None` and `""` are falsy. -/
def truthy : Option String → Bool
  | none => false
  | some s => !(s == "")

/-- Python `a or b` on optional strings: the first operand when truthy,
otherwise the second operand (even when the second is falsy). -/
def pyOr (a b : Option String) : Option String :=
  if truthy a then a else b

/-- The subset of `Settings` (src/config/settings.py) read by providers.py. -/
structure Settings where
  ai_model : String
  openai_api_key : Option String
  openai_model_name : String
  openai_base_url : Option String
  anthropic_api_key : Option String
  anthropic_model_name : String
  anthropic_base_url : Option String
  google_api_key : Option String
  gemini_model_name : String
  google_base_url : Option String
  openrouter_api_key : Option String
  openrouter_model_name : String
  openrouter_base_url : String
deriving DecidableEq, Repr

/-- The field defaults declared in src/config/settings.py. -/
def defaultSettings : Settings where
  ai_model := "openai:gpt-4o"
  openai_api_key := none
  openai_model_name := "gpt-4o"
  openai_base_url := none
  anthropic_api_key := none
  anthropic_model_name := "claude-3-5-sonnet-latest"
  anthropic_base_url := none
  google_api_key := none
  gemini_model_name := "gemini-2.5-pro"
  google_base_url := none
  openrouter_api_key := none
  openrouter_model_name := "openai/gpt-4o"
  openrouter_base_url := "https://openrouter.ai/api/v1"

/-- An environment with every variable unset. -/
def emptyEnv : Env := fun _ => none

/-- Environment update: set variable `k` to `v`. -/
def setEnv (env : Env) (k : String) (v : Option String) : Env :=
  fun k2 => if k2 = k then v else env k2

/-- The four supported LLM backends (closed set). -/
inductive ProviderTag where
  | openai
  | anthropic
  | google
  | openrouter
deriving DecidableEq, Repr

/-- The two exception kinds raised by providers.py:
`ConfigurationException` with its `config_key`, and `AIProviderException`
with its `provider`, `model` and wrapped `original_error`. -/
inductive ProviderError where
  | configurationError (configKey : String)
  | providerInitError (provider : String) (model : String) (cause : ProviderError)
deriving DecidableEq, Repr

/-- True exactly when a result is a bare (unwrapped) `ConfigurationException`. -/
def isBareConfigError {α : Type} : Except ProviderError α → Bool
  | .error (.configurationError _) => true
  | _ => false

/-- The observable bindings of a constructed pydantic-ai model object:
which factory built it, the model name it carries, the API key given to its
provider, and the base URL its transport client was constructed with
(`none` when the default client is used).  `get_openrouter_model` returns
an OpenAI-compatible client pointed at the OpenRouter base URL; its handle
is tagged `openrouter` to record the producing factory. -/
structure ModelHandle where
  provider : ProviderTag
  modelName : String
  apiKey : String
  baseUrl : Option String
deriving DecidableEq, Repr

/-- Python `s.startswith(p)`, computed on the underlying character lists. -/
def py_startswith (s p : String) : Bool :=
  p.data.isPrefixOf s.data

/-- `settings.openai_api_key or os.getenv("OPENAI_API_KEY")`. -/
def resolvedOpenaiKey (s : Settings) (env : Env) : Option String :=
  pyOr s.openai_api_key (env "OPENAI_API_KEY")

/-- `settings.openai_base_url or os.getenv("OPENAI_BASE_URL")`. -/
def resolvedOpenaiBaseUrl (s : Settings) (env : Env) : Option String :=
  pyOr s.openai_base_url (env "OPENAI_BASE_URL")

/-- `settings.anthropic_api_key or os.getenv("ANTHROPIC_API_KEY")`. -/
def resolvedAnthropicKey (s : Settings) (env : Env) : Option String :=
  pyOr s.anthropic_api_key (env "ANTHROPIC_API_KEY")

/-- `settings.anthropic_base_url or os.getenv("ANTHROPIC_BASE_URL")`. -/
def resolvedAnthropicBaseUrl (s : Settings) (env : Env) : Option String :=
  pyOr s.anthropic_base_url (env "ANTHROPIC_BASE_URL")

/-- `settings.google_api_key or os.getenv("GOOGLE_API_KEY") or os.getenv("GEMINI_API_KEY")`. -/
def resolvedGoogleKey (s : Settings) (env : Env) : Option String :=
  pyOr (pyOr s.google_api_key (env "GOOGLE_API_KEY")) (env "GEMINI_API_KEY")

/-- `settings.google_base_url or os.getenv("GOOGLE_BASE_URL")` (computed, logged, ignored). -/
def resolvedGoogleBaseUrl (s : Settings) (env : Env) : Option String :=
  pyOr s.google_base_url (env "GOOGLE_BASE_URL")

/-- `settings.openrouter_api_key or os.getenv("OPENROUTER_API_KEY")`. -/
def resolvedOpenrouterKey (s : Settings) (env : Env) : Option String :=
  pyOr s.openrouter_api_key (env "OPENROUTER_API_KEY")

/-- `get_openai_model` of providers.py.  The body mirrors the `try` block;
the surrounding `match` mirrors the `except Exception` clause, which also
catches the `ConfigurationException` raised for a missing key and re-raises
it wrapped in an `AIProviderException`. -/
def get_openai_model (s : Settings) (env : Env) : Except ProviderError ModelHandle :=
  let body : Except ProviderError ModelHandle :=
    let base_url := resolvedOpenaiBaseUrl s env
    let api_key := resolvedOpenaiKey s env
    if truthy api_key = false then
      .error (.configurationError "openai_api_key")
    else if truthy base_url then
      .ok { provider := .openai, modelName := s.openai_model_name,
            apiKey := api_key.getD "", baseUrl := base_url }
    else
      .ok { provider := .openai, modelName := s.openai_model_name,
            apiKey := api_key.getD "", baseUrl := none }
  match body with
  | .ok h => .ok h
  | .error e => .error (.providerInitError "openai" s.openai_model_name e)

/-- `get_anthropic_model` of providers.py (same shape as the OpenAI factory). -/
def get_anthropic_model (s : Settings) (env : Env) : Except ProviderError ModelHandle :=
  let body : Except ProviderError ModelHandle :=
    let base_url := resolvedAnthropicBaseUrl s env
    let api_key := resolvedAnthropicKey s env
    if truthy api_key = false then
      .error (.configurationError "anthropic_api_key")
    else if truthy base_url then
      .ok { provider := .anthropic, modelName := s.anthropic_model_name,
            apiKey := api_key.getD "", baseUrl := base_url }
    else
      .ok { provider := .anthropic, modelName := s.anthropic_model_name,
            apiKey := api_key.getD "", baseUrl := none }
  match body with
  | .ok h => .ok h
  | .error e => .error (.providerInitError "anthropic" s.anthropic_model_name e)

/-- `get_google_model` of providers.py: the resolved base URL is logged and
ignored (pydantic-ai's Google provider takes no custom base URL), so the
constructed handle always carries `baseUrl := none`. -/
def get_google_model (s : Settings) (env : Env) : Except ProviderError ModelHandle :=
  let body : Except ProviderError ModelHandle :=
    let _base_url := resolvedGoogleBaseUrl s env
    let api_key := resolvedGoogleKey s env
    if truthy api_key = false then
      .error (.configurationError "google_api_key")
    else
      .ok { provider := .google, modelName := s.gemini_model_name,
            apiKey := api_key.getD "", baseUrl := none }
  match body with
  | .ok h => .ok h
  | .error e => .error (.providerInitError "google" s.gemini_model_name e)

/-- `get_openrouter_model` of providers.py: the client is always built with
the fixed `settings.openrouter_base_url`. -/
def get_openrouter_model (s : Settings) (env : Env) : Except ProviderError ModelHandle :=
  let body : Except ProviderError ModelHandle :=
    let base_url := s.openrouter_base_url
    let api_key := resolvedOpenrouterKey s env
    if truthy api_key = false then
      .error (.configurationError "openrouter_api_key")
    else
      .ok { provider := .openrouter, modelName := s.openrouter_model_name,
            apiKey := api_key.getD "", baseUrl := some base_url }
  match body with
  | .ok h => .ok h
  | .error e => .error (.providerInitError "openrouter" s.openrouter_model_name e)

/-- Result of `get_llm_model`: a single provider handle, or a
`FallbackModel(primary, *rest)` built from model identifier strings. -/
inductive ResolvedModel where
  | single (h : ModelHandle)
  | fallback (primary : String) (rest : List String)
deriving DecidableEq, Repr

/-- The `models` list assembled on the `"fallback"` branch of
`get_llm_model`: one `"tag:model_name"` string per provider whose API key
resolves truthy, in source order; the Google entry uses the wire tag
`"google-gla"`. -/
def fallbackModels (s : Settings) (env : Env) : List String :=
  (if truthy (resolvedOpenaiKey s env) then
    ["openai:" ++ s.openai_model_name] else []) ++
  (if truthy (resolvedAnthropicKey s env) then
    ["anthropic:" ++ s.anthropic_model_name] else []) ++
  (if truthy (resolvedGoogleKey s env) then
    ["google-gla:" ++ s.gemini_model_name] else []) ++
  (if truthy (resolvedOpenrouterKey s env) then
    ["openrouter:" ++ s.openrouter_model_name] else [])

/-- `get_llm_model` of providers.py.  `model_name_arg` is the optional
override argument; `model_name = model_name or settings.ai_model` makes a
`None` or empty override fall back to the configured default identifier. -/
def get_llm_model (s : Settings) (env : Env) (model_name_arg : Option String) :
    Except ProviderError ResolvedModel :=
  let model_name : String :=
    if truthy model_name_arg then model_name_arg.getD "" else s.ai_model
  if py_startswith model_name "openai:" then
    (get_openai_model s env).map ResolvedModel.single
  else if py_startswith model_name "anthropic:" then
    (get_anthropic_model s env).map ResolvedModel.single
  else if py_startswith model_name "gemini:" then
    (get_google_model s env).map ResolvedModel.single
  else if py_startswith model_name "openrouter:" then
    (get_openrouter_model s env).map ResolvedModel.single
  else if model_name = "fallback" then
    match fallbackModels s env with
    | [] => .error (.configurationError "ai_model")
    | primary :: rest => .ok (.fallback primary rest)
  else
    (get_openai_model s env).map ResolvedModel.single

/-- The wire tag each provider contributes to the fallback chain; the spec
notes Google's is the distinct downstream value, not the parse-time
identifier segment. -/
def wireTag : ProviderTag → String
  | .openai => "openai"
  | .anthropic => "anthropic"
  | .google => "google-gla"
  | .openrouter => "openrouter"

/-- The configured model name settings carry for each provider. -/
def configuredModelName (s : Settings) : ProviderTag → String
  | .openai => s.openai_model_name
  | .anthropic => s.anthropic_model_name
  | .google => s.gemini_model_name
  | .openrouter => s.openrouter_model_name

/-- Whether a provider's API key resolves to a non-empty value from
configuration or environment. -/
def hasUsableKey (s : Settings) (env : Env) : ProviderTag → Bool
  | .openai => truthy (resolvedOpenaiKey s env)
  | .anthropic => truthy (resolvedAnthropicKey s env)
  | .google => truthy (resolvedGoogleKey s env)
  | .openrouter => truthy (resolvedOpenrouterKey s env)

/-- The fixed priority order of the fallback chain. -/
def priorityOrder : List ProviderTag :=
  [.openai, .anthropic, .google, .openrouter]

/-- Modelled from the spec (§4.4 FallbackChainBuilder): the chain is exactly
the providers with a usable key, filtered from the fixed priority order,
each contributing `"<wire-tag>:<configured model name>"`. -/
def specFallbackChain (s : Settings) (env : Env) : List String :=
  (priorityOrder.filter (hasUsableKey s env)).map
    (fun p => wireTag p ++ ":" ++ configuredModelName s p)

/-! ### Helper lemmas -/

theorem truthy_some_of_ne {name : String} (h : name ≠ "") : truthy (some name) = true := by
  simp [truthy, h]

theorem truthy_some_of_startswith {name p : String} (hp : p.data ≠ [])
    (h : py_startswith name p = true) : truthy (some name) = true := by
  apply truthy_some_of_ne
  intro h0
  subst h0
  unfold py_startswith at h
  cases hd : p.data with
  | nil => exact hp hd
  | cons c cs =>
    rw [hd] at h
    simp [List.isPrefixOf] at h

theorem fallbackModels_eq_specChain (s : Settings) (env : Env) :
    fallbackModels s env = specFallbackChain s env := by
  unfold fallbackModels specFallbackChain priorityOrder
  cases h1 : truthy (resolvedOpenaiKey s env) <;>
    cases h2 : truthy (resolvedAnthropicKey s env) <;>
      cases h3 : truthy (resolvedGoogleKey s env) <;>
        cases h4 : truthy (resolvedOpenrouterKey s env) <;>
          simp [h1, h2, h3, h4, hasUsableKey, wireTag, configuredModelName, List.filter]

theorem get_llm_model_fallback_eq (s : Settings) (env : Env) :
    get_llm_model s env (some "fallback") =
      match fallbackModels s env with
      | [] => .error (.configurationError "ai_model")
      | primary :: rest => .ok (.fallback primary rest) := rfl

theorem get_llm_model_openai_branch (s : Settings) (env : Env) (name : String)
    (h0 : truthy (some name) = true) (h1 : py_startswith name "openai:" = true) :
    get_llm_model s env (some name) = (get_openai_model s env).map ResolvedModel.single := by
  unfold get_llm_model
  simp [h0, h1]

theorem get_llm_model_anthropic_branch (s : Settings) (env : Env) (name : String)
    (h0 : truthy (some name) = true)
    (h1 : py_startswith name "openai:" = false)
    (h2 : py_startswith name "anthropic:" = true) :
    get_llm_model s env (some name) = (get_anthropic_model s env).map ResolvedModel.single := by
  unfold get_llm_model
  simp [h0, h1, h2]

theorem get_llm_model_gemini_branch (s : Settings) (env : Env) (name : String)
    (h0 : truthy (some name) = true)
    (h1 : py_startswith name "openai:" = false)
    (h2 : py_startswith name "anthropic:" = false)
    (h3 : py_startswith name "gemini:" = true) :
    get_llm_model s env (some name) = (get_google_model s env).map ResolvedModel.single := by
  unfold get_llm_model
  simp [h0, h1, h2, h3]

theorem get_llm_model_openrouter_branch (s : Settings) (env : Env) (name : String)
    (h0 : truthy (some name) = true)
    (h1 : py_startswith name "openai:" = false)
    (h2 : py_startswith name "anthropic:" = false)
    (h3 : py_startswith name "gemini:" = false)
    (h4 : py_startswith name "openrouter:" = true) :
    get_llm_model s env (some name) = (get_openrouter_model s env).map ResolvedModel.single := by
  unfold get_llm_model
  simp [h0, h1, h2, h3, h4]

theorem get_llm_model_default_branch (s : Settings) (env : Env) (name : String)
    (h0 : truthy (some name) = true)
    (h1 : py_startswith name "openai:" = false)
    (h2 : py_startswith name "anthropic:" = false)
    (h3 : py_startswith name "gemini:" = false)
    (h4 : py_startswith name "openrouter:" = false)
    (h5 : name ≠ "fallback") :
    get_llm_model s env (some name) = (get_openai_model s env).map ResolvedModel.single := by
  unfold get_llm_model
  simp [h0, h1, h2, h3, h4, h5]

theorem zeroUsable_chain_nil (s : Settings) (env : Env)
    (h : ∀ p : ProviderTag, hasUsableKey s env p = false) :
    fallbackModels s env = [] := by
  rw [fallbackModels_eq_specChain]
  simp [specFallbackChain, priorityOrder, List.filter, h]

/-! ### Claim theorems -/

/-- C2: the fallback chain built by `get_llm_model "fallback"` is exactly the
providers with a non-empty API key, in the fixed priority order openai,
anthropic, google, openrouter, each contributing
`"<wire-tag>:<configured model name>"` (Google's wire tag is `google-gla`);
with at least one credential present the result is that chain, never an
error. -/
theorem fallback_chain_is_usable_providers_in_priority_order (s : Settings) (env : Env) :
    (∀ primary rest, get_llm_model s env (some "fallback") = .ok (.fallback primary rest) →
      primary :: rest = specFallbackChain s env)
    ∧ (∀ primary rest, specFallbackChain s env = primary :: rest →
      get_llm_model s env (some "fallback") = .ok (.fallback primary rest)) := by
  have hm := fallbackModels_eq_specChain s env
  constructor
  · intro p rest h
    rw [get_llm_model_fallback_eq, hm] at h
    cases hc : specFallbackChain s env with
    | nil => rw [hc] at h; exact absurd h (by simp)
    | cons a l =>
      rw [hc] at h
      simp only [Except.ok.injEq, ResolvedModel.fallback.injEq] at h
      rw [← h.1, ← h.2]
  · intro p rest h
    rw [get_llm_model_fallback_eq, hm, h]

/-- Settings with all four API keys configured. -/
def settingsAllKeys : Settings :=
  { defaultSettings with
      openai_api_key := some "ok1", anthropic_api_key := some "ak1",
      google_api_key := some "gk1", openrouter_api_key := some "rk1" }

/-- Settings with only the Anthropic API key configured. -/
def settingsAnthropicOnly : Settings :=
  { defaultSettings with anthropic_api_key := some "ak1" }

/-- Witness for C2: with all four credentials the chain is the four entries
in priority order; with only the Anthropic credential it is a single-entry
chain, not an error. -/
theorem fallback_chain_priority_order_witness :
    get_llm_model settingsAllKeys emptyEnv (some "fallback") =
      .ok (.fallback "openai:gpt-4o"
        ["anthropic:claude-3-5-sonnet-latest", "google-gla:gemini-2.5-pro",
         "openrouter:openai/gpt-4o"])
    ∧ get_llm_model settingsAnthropicOnly emptyEnv (some "fallback") =
      .ok (.fallback "anthropic:claude-3-5-sonnet-latest" []) :=
  ⟨(fallback_chain_is_usable_providers_in_priority_order settingsAllKeys emptyEnv).2 _ _
      (by decide),
   (fallback_chain_is_usable_providers_in_priority_order settingsAnthropicOnly emptyEnv).2 _ _
      (by decide)⟩

/-- C3: with zero providers holding a usable API key,
`get_llm_model "fallback"` raises `ConfigurationException` and never returns
an empty chain; every returned fallback chain has length at least 1. -/
theorem fallback_zero_usable_raises_config_error (s : Settings) (env : Env) :
    ((∀ p : ProviderTag, hasUsableKey s env p = false) →
      get_llm_model s env (some "fallback") = .error (.configurationError "ai_model"))
    ∧ (∀ primary rest, get_llm_model s env (some "fallback") = .ok (.fallback primary rest) →
      1 ≤ (primary :: rest).length) := by
  constructor
  · intro h
    rw [get_llm_model_fallback_eq, zeroUsable_chain_nil s env h]
  · intro p rest _
    simp

/-- Witness for C3: with default settings (no keys) and an empty
environment, the fallback path raises the configuration error. -/
theorem fallback_zero_usable_witness :
    get_llm_model defaultSettings emptyEnv (some "fallback") =
      .error (.configurationError "ai_model") :=
  (fallback_zero_usable_raises_config_error defaultSettings emptyEnv).1
    (by intro p; cases p <;> decide)

/-- C10: on the fallback path the zero-usable-providers
`ConfigurationException` propagates unwrapped: the result is the bare
configuration error and is never an `AIProviderException` wrapper. -/
theorem fallback_config_error_propagates_unwrapped (s : Settings) (env : Env)
    (h : ∀ p : ProviderTag, hasUsableKey s env p = false) :
    get_llm_model s env (some "fallback") = .error (.configurationError "ai_model")
    ∧ ∀ prov m c, get_llm_model s env (some "fallback") ≠
        .error (.providerInitError prov m c) := by
  have he : get_llm_model s env (some "fallback") = .error (.configurationError "ai_model") := by
    rw [get_llm_model_fallback_eq, zeroUsable_chain_nil s env h]
  refine ⟨he, ?_⟩
  intro prov m c hc
  rw [he] at hc
  simp at hc

/-- Witness for C10: concrete zero-credential configuration (with an
unrelated environment variable set) yields the bare configuration error. -/
theorem fallback_config_error_unwrapped_witness :
    get_llm_model defaultSettings (setEnv emptyEnv "UNRELATED" (some "x")) (some "fallback") =
      .error (.configurationError "ai_model") :=
  (fallback_config_error_propagates_unwrapped defaultSettings
    (setEnv emptyEnv "UNRELATED" (some "x")) (by intro p; cases p <;> decide)).1

/-- C1 counterexample: with no OpenAI key in settings or environment the
resolved key is empty, yet `get_openai_model` fails with an
`AIProviderException` wrapping the `ConfigurationException` — not with the
bare `ConfigurationException` the claim requires: the `except Exception`
clause catches the internally raised error and re-wraps it. -/
theorem missing_key_not_bare_config_error_counterexample :
    truthy (resolvedOpenaiKey defaultSettings emptyEnv) = false
    ∧ get_openai_model defaultSettings emptyEnv =
        .error (.providerInitError "openai" "gpt-4o" (.configurationError "openai_api_key"))
    ∧ isBareConfigError (get_openai_model defaultSettings emptyEnv) = false := by
  decide

/-- C1 amended: when the resolved API key is empty, each of the four
factories raises `ConfigurationException` internally, but its catch-all
`except Exception` re-wraps it, so the factory fails with
`AIProviderException` (ProviderInitError) wrapping that
`ConfigurationException`. -/
theorem factories_wrap_missing_key_error (s : Settings) (env : Env) :
    (truthy (resolvedOpenaiKey s env) = false →
      get_openai_model s env =
        .error (.providerInitError "openai" s.openai_model_name
          (.configurationError "openai_api_key")))
    ∧ (truthy (resolvedAnthropicKey s env) = false →
      get_anthropic_model s env =
        .error (.providerInitError "anthropic" s.anthropic_model_name
          (.configurationError "anthropic_api_key")))
    ∧ (truthy (resolvedGoogleKey s env) = false →
      get_google_model s env =
        .error (.providerInitError "google" s.gemini_model_name
          (.configurationError "google_api_key")))
    ∧ (truthy (resolvedOpenrouterKey s env) = false →
      get_openrouter_model s env =
        .error (.providerInitError "openrouter" s.openrouter_model_name
          (.configurationError "openrouter_api_key"))) := by
  refine ⟨?_, ?_, ?_, ?_⟩
  · intro h
    simp [get_openai_model, h]
  · intro h
    simp [get_anthropic_model, h]
  · intro h
    simp [get_google_model, h]
  · intro h
    simp [get_openrouter_model, h]

/-- Witness for the amended C1: all four factories, with no credentials
anywhere, produce the wrapped error. -/
theorem factories_wrap_missing_key_witness :
    get_openai_model defaultSettings emptyEnv =
      .error (.providerInitError "openai" "gpt-4o" (.configurationError "openai_api_key"))
    ∧ get_anthropic_model defaultSettings emptyEnv =
      .error (.providerInitError "anthropic" "claude-3-5-sonnet-latest"
        (.configurationError "anthropic_api_key"))
    ∧ get_google_model defaultSettings emptyEnv =
      .error (.providerInitError "google" "gemini-2.5-pro"
        (.configurationError "google_api_key"))
    ∧ get_openrouter_model defaultSettings emptyEnv =
      .error (.providerInitError "openrouter" "openai/gpt-4o"
        (.configurationError "openrouter_api_key")) :=
  ⟨(factories_wrap_missing_key_error defaultSettings emptyEnv).1 (by decide),
   (factories_wrap_missing_key_error defaultSettings emptyEnv).2.1 (by decide),
   (factories_wrap_missing_key_error defaultSettings emptyEnv).2.2.1 (by decide),
   (factories_wrap_missing_key_error defaultSettings emptyEnv).2.2.2 (by decide)⟩

/-- C5: for each of the four provider prefixes, when no credential is
available the resolution through `get_llm_model` fails with one of the two
documented error kinds (concretely, the `AIProviderException` wrapper
around the `ConfigurationException`) and never returns a handle. -/
theorem no_credential_resolution_fails (s : Settings) (env : Env) (name : String) :
    (py_startswith name "openai:" = true →
      truthy (resolvedOpenaiKey s env) = false →
      get_llm_model s env (some name) =
        .error (.providerInitError "openai" s.openai_model_name
          (.configurationError "openai_api_key")))
    ∧ (py_startswith name "openai:" = false →
       py_startswith name "anthropic:" = true →
       truthy (resolvedAnthropicKey s env) = false →
      get_llm_model s env (some name) =
        .error (.providerInitError "anthropic" s.anthropic_model_name
          (.configurationError "anthropic_api_key")))
    ∧ (py_startswith name "openai:" = false →
       py_startswith name "anthropic:" = false →
       py_startswith name "gemini:" = true →
       truthy (resolvedGoogleKey s env) = false →
      get_llm_model s env (some name) =
        .error (.providerInitError "google" s.gemini_model_name
          (.configurationError "google_api_key")))
    ∧ (py_startswith name "openai:" = false →
       py_startswith name "anthropic:" = false →
       py_startswith name "gemini:" = false →
       py_startswith name "openrouter:" = true →
       truthy (resolvedOpenrouterKey s env) = false →
      get_llm_model s env (some name) =
        .error (.providerInitError "openrouter" s.openrouter_model_name
          (.configurationError "openrouter_api_key"))) := by
  refine ⟨?_, ?_, ?_, ?_⟩
  · intro hp hk
    rw [get_llm_model_openai_branch s env name
      (truthy_some_of_startswith (by decide) hp) hp]
    simp [get_openai_model, hk, Except.map]
  · intro h1 hp hk
    rw [get_llm_model_anthropic_branch s env name
      (truthy_some_of_startswith (by decide) hp) h1 hp]
    simp [get_anthropic_model, hk, Except.map]
  · intro h1 h2 hp hk
    rw [get_llm_model_gemini_branch s env name
      (truthy_some_of_startswith (by decide) hp) h1 h2 hp]
    simp [get_google_model, hk, Except.map]
  · intro h1 h2 h3 hp hk
    rw [get_llm_model_openrouter_branch s env name
      (truthy_some_of_startswith (by decide) hp) h1 h2 h3 hp]
    simp [get_openrouter_model, hk, Except.map]

/-- Witness for C5: each of the four prefixes with zero credentials yields
the wrapped configuration error through `get_llm_model`. -/
theorem no_credential_resolution_fails_witness :
    get_llm_model defaultSettings emptyEnv (some "openai:gpt-4") =
      .error (.providerInitError "openai" "gpt-4o" (.configurationError "openai_api_key"))
    ∧ get_llm_model defaultSettings emptyEnv (some "anthropic:claude-3") =
      .error (.providerInitError "anthropic" "claude-3-5-sonnet-latest"
        (.configurationError "anthropic_api_key"))
    ∧ get_llm_model defaultSettings emptyEnv (some "gemini:gemini-pro") =
      .error (.providerInitError "google" "gemini-2.5-pro"
        (.configurationError "google_api_key"))
    ∧ get_llm_model defaultSettings emptyEnv (some "openrouter:meta") =
      .error (.providerInitError "openrouter" "openai/gpt-4o"
        (.configurationError "openrouter_api_key")) :=
  ⟨(no_credential_resolution_fails defaultSettings emptyEnv "openai:gpt-4").1
      (by decide) (by decide),
   (no_credential_resolution_fails defaultSettings emptyEnv "anthropic:claude-3").2.1
      (by decide) (by decide) (by decide),
   (no_credential_resolution_fails defaultSettings emptyEnv "gemini:gemini-pro").2.2.1
      (by decide) (by decide) (by decide) (by decide),
   (no_credential_resolution_fails defaultSettings emptyEnv "openrouter:meta").2.2.2
      (by decide) (by decide) (by decide) (by decide) (by decide)⟩

/-- C6: credential resolution prefers the configured settings value over
the environment for every provider (the environment is ignored whenever the
configured value is non-empty), and Google's environment variables are
tried in the fixed order `GOOGLE_API_KEY` before `GEMINI_API_KEY`. -/
theorem credential_config_preferred_over_env (s : Settings) (env : Env) :
    (truthy s.openai_api_key = true → resolvedOpenaiKey s env = s.openai_api_key)
    ∧ (truthy s.anthropic_api_key = true → resolvedAnthropicKey s env = s.anthropic_api_key)
    ∧ (truthy s.google_api_key = true → resolvedGoogleKey s env = s.google_api_key)
    ∧ (truthy s.openrouter_api_key = true → resolvedOpenrouterKey s env = s.openrouter_api_key)
    ∧ (truthy s.google_api_key = false → truthy (env "GOOGLE_API_KEY") = true →
        resolvedGoogleKey s env = env "GOOGLE_API_KEY") := by
  refine ⟨?_, ?_, ?_, ?_, ?_⟩
  · intro h
    simp [resolvedOpenaiKey, pyOr, h]
  · intro h
    simp [resolvedAnthropicKey, pyOr, h]
  · intro h
    simp [resolvedGoogleKey, pyOr, h]
  · intro h
    simp [resolvedOpenrouterKey, pyOr, h]
  · intro h1 h2
    simp [resolvedGoogleKey, pyOr, h1, h2]

/-- Witness for C6: configured keys win over conflicting environment
values, and `GOOGLE_API_KEY` wins over `GEMINI_API_KEY`. -/
theorem credential_config_preferred_witness :
    resolvedOpenaiKey settingsAllKeys (setEnv emptyEnv "OPENAI_API_KEY" (some "envk")) =
      some "ok1"
    ∧ resolvedAnthropicKey settingsAllKeys (setEnv emptyEnv "ANTHROPIC_API_KEY" (some "envk")) =
      some "ak1"
    ∧ resolvedGoogleKey settingsAllKeys (setEnv emptyEnv "GOOGLE_API_KEY" (some "envk")) =
      some "gk1"
    ∧ resolvedOpenrouterKey settingsAllKeys (setEnv emptyEnv "OPENROUTER_API_KEY" (some "envk")) =
      some "rk1"
    ∧ resolvedGoogleKey defaultSettings
        (setEnv (setEnv emptyEnv "GOOGLE_API_KEY" (some "googk")) "GEMINI_API_KEY" (some "gemk")) =
      some "googk" :=
  ⟨(credential_config_preferred_over_env settingsAllKeys _).1 (by decide),
   (credential_config_preferred_over_env settingsAllKeys _).2.1 (by decide),
   (credential_config_preferred_over_env settingsAllKeys _).2.2.1 (by decide),
   (credential_config_preferred_over_env settingsAllKeys _).2.2.2.1 (by decide),
   (credential_config_preferred_over_env defaultSettings _).2.2.2.2 (by decide) (by decide)⟩

/-- Settings whose configured default identifier points at Anthropic. -/
def settingsAnthropicDefault : Settings :=
  { defaultSettings with ai_model := "anthropic:claude", anthropic_api_key := some "ak1" }

/-- C4 counterexample: the empty string neither carries one of the four
prefixes nor equals `"fallback"`, yet `get_llm_model` does not delegate to
the OpenAI factory for it: `model_name or settings.ai_model` replaces the
falsy empty override with the configured default identifier, which here
dispatches to Anthropic. -/
theorem unknown_identifier_empty_string_counterexample :
    py_startswith "" "openai:" = false
    ∧ py_startswith "" "anthropic:" = false
    ∧ py_startswith "" "gemini:" = false
    ∧ py_startswith "" "openrouter:" = false
    ∧ "" ≠ "fallback"
    ∧ get_llm_model settingsAnthropicDefault emptyEnv (some "") ≠
        (get_openai_model settingsAnthropicDefault emptyEnv).map ResolvedModel.single := by
  decide

/-- C4 amended: for every NON-EMPTY identifier that neither starts with one
of the four prefixes nor equals `"fallback"`, `get_llm_model` raises no
parse error and delegates to the OpenAI factory, returning whatever it
returns (the empty string instead falls back to the configured
`settings.ai_model` before dispatch). -/
theorem unknown_identifier_defaults_to_openai (s : Settings) (env : Env) (name : String)
    (h0 : name ≠ "")
    (h1 : py_startswith name "openai:" = false)
    (h2 : py_startswith name "anthropic:" = false)
    (h3 : py_startswith name "gemini:" = false)
    (h4 : py_startswith name "openrouter:" = false)
    (h5 : name ≠ "fallback") :
    get_llm_model s env (some name) = (get_openai_model s env).map ResolvedModel.single :=
  get_llm_model_default_branch s env name (truthy_some_of_ne h0) h1 h2 h3 h4 h5

/-- Witness for the amended C4: the unrecognized identifier `"bogus"`
resolves to exactly the OpenAI factory's result. -/
theorem unknown_identifier_defaults_witness :
    get_llm_model settingsAllKeys emptyEnv (some "bogus") =
      (get_openai_model settingsAllKeys emptyEnv).map ResolvedModel.single :=
  unknown_identifier_defaults_to_openai settingsAllKeys emptyEnv "bogus"
    (by decide) (by decide) (by decide) (by decide) (by decide) (by decide)

/-- C7: for each provider prefix, a non-empty resolved credential makes
`get_llm_model` return a handle built by that provider's factory and bound
to that provider's configured model name from settings, whatever
model-name segment follows the colon in the identifier. -/
theorem valid_credential_returns_configured_handle (s : Settings) (env : Env) (name : String) :
    (py_startswith name "openai:" = true →
      truthy (resolvedOpenaiKey s env) = true →
      ∃ h, get_llm_model s env (some name) = .ok (.single h)
        ∧ h.provider = ProviderTag.openai ∧ h.modelName = s.openai_model_name)
    ∧ (py_startswith name "openai:" = false →
       py_startswith name "anthropic:" = true →
       truthy (resolvedAnthropicKey s env) = true →
      ∃ h, get_llm_model s env (some name) = .ok (.single h)
        ∧ h.provider = ProviderTag.anthropic ∧ h.modelName = s.anthropic_model_name)
    ∧ (py_startswith name "openai:" = false →
       py_startswith name "anthropic:" = false →
       py_startswith name "gemini:" = true →
       truthy (resolvedGoogleKey s env) = true →
      ∃ h, get_llm_model s env (some name) = .ok (.single h)
        ∧ h.provider = ProviderTag.google ∧ h.modelName = s.gemini_model_name)
    ∧ (py_startswith name "openai:" = false →
       py_startswith name "anthropic:" = false →
       py_startswith name "gemini:" = false →
       py_startswith name "openrouter:" = true →
       truthy (resolvedOpenrouterKey s env) = true →
      ∃ h, get_llm_model s env (some name) = .ok (.single h)
        ∧ h.provider = ProviderTag.openrouter ∧ h.modelName = s.openrouter_model_name) := by
  refine ⟨?_, ?_, ?_, ?_⟩
  · intro hp hk
    rw [get_llm_model_openai_branch s env name
      (truthy_some_of_startswith (by decide) hp) hp]
    cases hb : truthy (resolvedOpenaiBaseUrl s env) with
    | false =>
      exact ⟨{ provider := .openai, modelName := s.openai_model_name,
               apiKey := (resolvedOpenaiKey s env).getD "", baseUrl := none },
             by simp [get_openai_model, hk, hb, Except.map], rfl, rfl⟩
    | true =>
      exact ⟨{ provider := .openai, modelName := s.openai_model_name,
               apiKey := (resolvedOpenaiKey s env).getD "",
               baseUrl := resolvedOpenaiBaseUrl s env },
             by simp [get_openai_model, hk, hb, Except.map], rfl, rfl⟩
  · intro h1 hp hk
    rw [get_llm_model_anthropic_branch s env name
      (truthy_some_of_startswith (by decide) hp) h1 hp]
    cases hb : truthy (resolvedAnthropicBaseUrl s env) with
    | false =>
      exact ⟨{ provider := .anthropic, modelName := s.anthropic_model_name,
               apiKey := (resolvedAnthropicKey s env).getD "", baseUrl := none },
             by simp [get_anthropic_model, hk, hb, Except.map], rfl, rfl⟩
    | true =>
      exact ⟨{ provider := .anthropic, modelName := s.anthropic_model_name,
               apiKey := (resolvedAnthropicKey s env).getD "",
               baseUrl := resolvedAnthropicBaseUrl s env },
             by simp [get_anthropic_model, hk, hb, Except.map], rfl, rfl⟩
  · intro h1 h2 hp hk
    rw [get_llm_model_gemini_branch s env name
      (truthy_some_of_startswith (by decide) hp) h1 h2 hp]
    exact ⟨{ provider := .google, modelName := s.gemini_model_name,
             apiKey := (resolvedGoogleKey s env).getD "", baseUrl := none },
           by simp [get_google_model, hk, Except.map], rfl, rfl⟩
  · intro h1 h2 h3 hp hk
    rw [get_llm_model_openrouter_branch s env name
      (truthy_some_of_startswith (by decide) hp) h1 h2 h3 hp]
    exact ⟨{ provider := .openrouter, modelName := s.openrouter_model_name,
             apiKey := (resolvedOpenrouterKey s env).getD "",
             baseUrl := some s.openrouter_base_url },
           by simp [get_openrouter_model, hk, Except.map], rfl, rfl⟩

/-- Witness for C7: each provider prefix, credentialed through a different
legitimate source (config, canonical env var, Google's two env vars,
config), yields a handle bound to the configured model name even though the
identifier's model segment differs from it. -/
theorem valid_credential_returns_handle_witness :
    (∃ h, get_llm_model settingsAllKeys emptyEnv (some "openai:gpt-3.5-turbo") = .ok (.single h)
      ∧ h.provider = ProviderTag.openai ∧ h.modelName = "gpt-4o")
    ∧ (∃ h, get_llm_model defaultSettings (setEnv emptyEnv "ANTHROPIC_API_KEY" (some "ek"))
          (some "anthropic:claude-3-haiku") = .ok (.single h)
      ∧ h.provider = ProviderTag.anthropic ∧ h.modelName = "claude-3-5-sonnet-latest")
    ∧ (∃ h, get_llm_model defaultSettings (setEnv emptyEnv "GOOGLE_API_KEY" (some "ek"))
          (some "gemini:gemini-1.5-flash") = .ok (.single h)
      ∧ h.provider = ProviderTag.google ∧ h.modelName = "gemini-2.5-pro")
    ∧ (∃ h, get_llm_model defaultSettings (setEnv emptyEnv "GEMINI_API_KEY" (some "ek"))
          (some "gemini:gemini-1.5-flash") = .ok (.single h)
      ∧ h.provider = ProviderTag.google ∧ h.modelName = "gemini-2.5-pro")
    ∧ (∃ h, get_llm_model settingsAllKeys emptyEnv (some "openrouter:meta/llama") = .ok (.single h)
      ∧ h.provider = ProviderTag.openrouter ∧ h.modelName = "openai/gpt-4o") :=
  ⟨(valid_credential_returns_configured_handle settingsAllKeys emptyEnv
      "openai:gpt-3.5-turbo").1 (by decide) (by decide),
   (valid_credential_returns_configured_handle defaultSettings
      (setEnv emptyEnv "ANTHROPIC_API_KEY" (some "ek")) "anthropic:claude-3-haiku").2.1
      (by decide) (by decide) (by decide),
   (valid_credential_returns_configured_handle defaultSettings
      (setEnv emptyEnv "GOOGLE_API_KEY" (some "ek")) "gemini:gemini-1.5-flash").2.2.1
      (by decide) (by decide) (by decide) (by decide),
   (valid_credential_returns_configured_handle defaultSettings
      (setEnv emptyEnv "GEMINI_API_KEY" (some "ek")) "gemini:gemini-1.5-flash").2.2.1
      (by decide) (by decide) (by decide) (by decide),
   (valid_credential_returns_configured_handle settingsAllKeys emptyEnv
      "openrouter:meta/llama").2.2.2 (by decide) (by decide) (by decide) (by decide)
      (by decide)⟩

/-- C8: a truthy base-URL override changes the constructed handle for
openai and anthropic (the client carries that base URL; without an override
it carries none), while for google the override — whether in settings or in
the `GOOGLE_BASE_URL` environment variable — never changes the constructed
result, and a credentialed google resolution still succeeds with a handle
carrying no base URL. -/
theorem base_url_override_behavior (s : Settings) (env : Env) :
    (truthy (resolvedOpenaiKey s env) = true →
      truthy (resolvedOpenaiBaseUrl s env) = true →
      ∃ h, get_openai_model s env = .ok h ∧ h.baseUrl = resolvedOpenaiBaseUrl s env)
    ∧ (truthy (resolvedOpenaiKey s env) = true →
      truthy (resolvedOpenaiBaseUrl s env) = false →
      ∃ h, get_openai_model s env = .ok h ∧ h.baseUrl = none)
    ∧ (truthy (resolvedAnthropicKey s env) = true →
      truthy (resolvedAnthropicBaseUrl s env) = true →
      ∃ h, get_anthropic_model s env = .ok h ∧ h.baseUrl = resolvedAnthropicBaseUrl s env)
    ∧ (truthy (resolvedAnthropicKey s env) = true →
      truthy (resolvedAnthropicBaseUrl s env) = false →
      ∃ h, get_anthropic_model s env = .ok h ∧ h.baseUrl = none)
    ∧ (∀ b, get_google_model { s with google_base_url := b } env =
        get_google_model { s with google_base_url := none } env)
    ∧ (∀ v, get_google_model s (setEnv env "GOOGLE_BASE_URL" v) =
        get_google_model s (setEnv env "GOOGLE_BASE_URL" none))
    ∧ (truthy (resolvedGoogleKey s env) = true →
      ∃ h, get_google_model s env = .ok h ∧ h.baseUrl = none) := by
  refine ⟨?_, ?_, ?_, ?_, ?_, ?_, ?_⟩
  · intro hk hb
    exact ⟨{ provider := .openai, modelName := s.openai_model_name,
             apiKey := (resolvedOpenaiKey s env).getD "",
             baseUrl := resolvedOpenaiBaseUrl s env },
           by simp [get_openai_model, hk, hb], rfl⟩
  · intro hk hb
    exact ⟨{ provider := .openai, modelName := s.openai_model_name,
             apiKey := (resolvedOpenaiKey s env).getD "", baseUrl := none },
           by simp [get_openai_model, hk, hb], rfl⟩
  · intro hk hb
    exact ⟨{ provider := .anthropic, modelName := s.anthropic_model_name,
             apiKey := (resolvedAnthropicKey s env).getD "",
             baseUrl := resolvedAnthropicBaseUrl s env },
           by simp [get_anthropic_model, hk, hb], rfl⟩
  · intro hk hb
    exact ⟨{ provider := .anthropic, modelName := s.anthropic_model_name,
             apiKey := (resolvedAnthropicKey s env).getD "", baseUrl := none },
           by simp [get_anthropic_model, hk, hb], rfl⟩
  · intro b
    rfl
  · intro v
    simp [get_google_model, resolvedGoogleKey, resolvedGoogleBaseUrl, pyOr, setEnv]
  · intro hk
    exact ⟨{ provider := .google, modelName := s.gemini_model_name,
             apiKey := (resolvedGoogleKey s env).getD "", baseUrl := none },
           by simp [get_google_model, hk], rfl⟩

/-- Settings with all four keys and openai/anthropic/google base-URL
overrides configured. -/
def settingsWithBases : Settings :=
  { settingsAllKeys with
      openai_base_url := some "https://proxy.example/v1",
      anthropic_base_url := some "https://aproxy.example",
      google_base_url := some "https://gproxy.example" }

/-- Witness for C8: with overrides configured, openai and anthropic handles
carry the override; without overrides they carry none; google's result is
unchanged by a concrete settings or environment override and still
succeeds with no base URL. -/
theorem base_url_override_witness :
    (∃ h, get_openai_model settingsWithBases emptyEnv = .ok h
      ∧ h.baseUrl = resolvedOpenaiBaseUrl settingsWithBases emptyEnv)
    ∧ (∃ h, get_openai_model settingsAllKeys emptyEnv = .ok h ∧ h.baseUrl = none)
    ∧ (∃ h, get_anthropic_model settingsWithBases emptyEnv = .ok h
      ∧ h.baseUrl = resolvedAnthropicBaseUrl settingsWithBases emptyEnv)
    ∧ (∃ h, get_anthropic_model settingsAllKeys emptyEnv = .ok h ∧ h.baseUrl = none)
    ∧ get_google_model { settingsAllKeys with google_base_url := some "https://gproxy.example" }
        emptyEnv =
      get_google_model { settingsAllKeys with google_base_url := none } emptyEnv
    ∧ get_google_model settingsAllKeys (setEnv emptyEnv "GOOGLE_BASE_URL" (some "https://g.example")) =
      get_google_model settingsAllKeys (setEnv emptyEnv "GOOGLE_BASE_URL" none)
    ∧ (∃ h, get_google_model settingsWithBases emptyEnv = .ok h ∧ h.baseUrl = none) :=
  ⟨(base_url_override_behavior settingsWithBases emptyEnv).1 (by decide) (by decide),
   (base_url_override_behavior settingsAllKeys emptyEnv).2.1 (by decide) (by decide),
   (base_url_override_behavior settingsWithBases emptyEnv).2.2.1 (by decide) (by decide),
   (base_url_override_behavior settingsAllKeys emptyEnv).2.2.2.1 (by decide) (by decide),
   (base_url_override_behavior settingsAllKeys emptyEnv).2.2.2.2.1 (some "https://gproxy.example"),
   (base_url_override_behavior settingsAllKeys emptyEnv).2.2.2.2.2.1 (some "https://g.example"),
   (base_url_override_behavior settingsWithBases emptyEnv).2.2.2.2.2.2 (by decide)⟩

/-- The eight environment variables providers.py reads. -/
def consumedEnvVars : List String :=
  ["OPENAI_API_KEY", "OPENAI_BASE_URL", "ANTHROPIC_API_KEY", "ANTHROPIC_BASE_URL",
   "GOOGLE_API_KEY", "GEMINI_API_KEY", "GOOGLE_BASE_URL", "OPENROUTER_API_KEY"]

/-- C9: resolution is a deterministic function of the identifier, the
settings and the (consumed part of the) environment: two calls with the
same identifier and settings, whose environments agree on every consumed
variable, produce equal results — identical provider and model bindings. -/
theorem resolution_deterministic (s : Settings) (env1 env2 : Env) (arg : Option String)
    (h : ∀ k ∈ consumedEnvVars, env1 k = env2 k) :
    get_llm_model s env1 arg = get_llm_model s env2 arg := by
  have e1 : env1 "OPENAI_API_KEY" = env2 "OPENAI_API_KEY" := h _ (by simp [consumedEnvVars])
  have e2 : env1 "OPENAI_BASE_URL" = env2 "OPENAI_BASE_URL" := h _ (by simp [consumedEnvVars])
  have e3 : env1 "ANTHROPIC_API_KEY" = env2 "ANTHROPIC_API_KEY" := h _ (by simp [consumedEnvVars])
  have e4 : env1 "ANTHROPIC_BASE_URL" = env2 "ANTHROPIC_BASE_URL" := h _ (by simp [consumedEnvVars])
  have e5 : env1 "GOOGLE_API_KEY" = env2 "GOOGLE_API_KEY" := h _ (by simp [consumedEnvVars])
  have e6 : env1 "GEMINI_API_KEY" = env2 "GEMINI_API_KEY" := h _ (by simp [consumedEnvVars])
  have e7 : env1 "GOOGLE_BASE_URL" = env2 "GOOGLE_BASE_URL" := h _ (by simp [consumedEnvVars])
  have e8 : env1 "OPENROUTER_API_KEY" = env2 "OPENROUTER_API_KEY" := h _ (by simp [consumedEnvVars])
  have go : get_openai_model s env1 = get_openai_model s env2 := by
    unfold get_openai_model resolvedOpenaiKey resolvedOpenaiBaseUrl
    rw [e1, e2]
  have ga : get_anthropic_model s env1 = get_anthropic_model s env2 := by
    unfold get_anthropic_model resolvedAnthropicKey resolvedAnthropicBaseUrl
    rw [e3, e4]
  have gg : get_google_model s env1 = get_google_model s env2 := by
    unfold get_google_model resolvedGoogleKey resolvedGoogleBaseUrl
    rw [e5, e6, e7]
  have gor : get_openrouter_model s env1 = get_openrouter_model s env2 := by
    unfold get_openrouter_model resolvedOpenrouterKey
    rw [e8]
  have fm : fallbackModels s env1 = fallbackModels s env2 := by
    unfold fallbackModels resolvedOpenaiKey resolvedAnthropicKey resolvedGoogleKey
      resolvedOpenrouterKey
    rw [e1, e3, e5, e6, e8]
  unfold get_llm_model
  rw [go, ga, gg, gor, fm]

/-- Witness for C9: two environments identical on every consumed variable
but differing on an unrelated one resolve identically. -/
theorem resolution_deterministic_witness :
    get_llm_model defaultSettings
        (setEnv (setEnv emptyEnv "OPENAI_API_KEY" (some "k")) "UNRELATED" (some "a"))
        (some "openai:gpt-4") =
      get_llm_model defaultSettings (setEnv emptyEnv "OPENAI_API_KEY" (some "k"))
        (some "openai:gpt-4") :=
  resolution_deterministic defaultSettings
    (setEnv (setEnv emptyEnv "OPENAI_API_KEY" (some "k")) "UNRELATED" (some "a"))
    (setEnv emptyEnv "OPENAI_API_KEY" (some "k")) (some "openai:gpt-4") (by decide)

end GitlabCrAgent
